import Mathlib

/-!
Shallow embedding of `src/calculation.py` (Financial-Statement-Validator).

Monetary values are embedded as rationals (`ℚ`): the Python source performs
exact-looking arithmetic and zero-tolerance comparisons on statement values.
The Benford analyzer's probabilities use real numbers (`ℝ`), standing for the
source's floating-point `math.log10` values.

Python dictionaries with a fixed key set become structures.  A key accessed
with `dict.get(key, default)` in the source becomes an `Option` field read
with `Option.getD`; a key accessed by direct subscription (which raises
`KeyError` when absent) becomes a plain field, so such statements are embedded
under the precondition that their required keys are present.
-/

/-- A transaction amount, embedded as a decimal number `mantissa / 10 ^ scale`.
This captures both Python ints (`scale = 0`) and decimal floats such as
`-0.057 = ⟨-57, 3⟩`, together with the decimal rendering `str(abs(number))`
that `Benford._extract_first_digit` operates on. -/
structure Amount where
  mantissa : Int
  scale : ℕ
deriving DecidableEq

/-- Decimal digits of `n`, most significant first (`[]` for `0`).  The first
argument is structural-recursion fuel; `fuel = n` always suffices. -/
def digitsOf : ℕ → ℕ → List ℕ
  | _, 0 => []
  | 0, _ => []
  | fuel + 1, n => digitsOf fuel (n / 10) ++ [n % 10]

/-- The sequence of digit characters of `str(abs(number))` with the decimal
point and sign removed, as read by `Benford._extract_first_digit`:
the integer part (Python renders `0` for an empty integer part), then the
fractional part left-padded with zeros to the decimal scale.
E.g. `⟨-57, 3⟩` (i.e. `-0.057`) renders as `0.057`, giving `[0, 0, 5, 7]`. -/
def decimal_digit_chars (number : Amount) : List ℕ :=
  let n := number.mantissa.natAbs
  let intPart := n / 10 ^ number.scale
  let fracPart := n % 10 ^ number.scale
  (if intPart = 0 then [0] else digitsOf intPart intPart) ++
    List.replicate (number.scale - (digitsOf fracPart fracPart).length) 0 ++
    digitsOf fracPart fracPart

namespace Benford

/-- `Benford._extract_first_digit`: scan the rendered decimal digits of the
absolute value and return the first non-zero one; return `-1` (the source's
"no leading digit" sentinel) when every digit is zero. -/
def extract_first_digit (number : Amount) : Int :=
  match (decimal_digit_chars number).find? (fun c => c != 0) with
  | some c => (c : Int)
  | none => -1

/-- One iteration of the loop in `Benford._count_first_digits`.  The dict
`digit_counts` has exactly the keys `1..9`; Python's
`digit_counts[first_digit] += 1` raises `KeyError` (embedded as `none`) when
`first_digit` is outside `1..9`.  The source's guard `if first_digit is not
None` is always true — the sentinel is `-1`, not `None` — so it does not
filter anything here, exactly as in the code. -/
def count_step (acc : Option (ℤ → ℕ)) (amount : Amount) : Option (ℤ → ℕ) :=
  acc.bind fun digit_counts =>
    let first_digit := extract_first_digit amount
    if 1 ≤ first_digit ∧ first_digit ≤ 9 then
      some (Function.update digit_counts first_digit (digit_counts first_digit + 1))
    else
      none

/-- `Benford._count_first_digits`: tally the leading digit of every amount
into counts for digits `1..9`; `none` when the loop raises `KeyError`. -/
def count_first_digits (data : List Amount) : Option (ℤ → ℕ) :=
  data.foldl count_step (some fun _ => 0)

/-- `Benford._calculate_expected_probabilities`: `P(d) = log10(1 + 1/d)`. -/
noncomputable def expected_probabilities : ℤ → ℝ :=
  fun digit => Real.logb 10 (1 + 1 / (digit : ℝ))

/-- The actual-proportion dict built inside `Benford.analyze`:
`digit_counts[digit] / total_transactions if total_transactions > 0 else 0`. -/
noncomputable def actual_proportions (digit_counts : ℤ → ℕ) (total_transactions : ℕ) :
    ℤ → ℝ :=
  fun digit =>
    if 0 < total_transactions then (digit_counts digit : ℝ) / (total_transactions : ℝ)
    else 0

/-- `Benford._calculate_mad`: mean of `|actual - expected|` over digits 1..9. -/
noncomputable def calculate_mad (actual expected : ℤ → ℝ) : ℝ :=
  (∑ digit in Finset.Icc (1 : ℤ) 9, |actual digit - expected digit|) / 9

/-- Python's `round(x, ndigits)`, embedded as rounding to the nearest multiple
of `10 ^ (-ndigits)` (the half-even tie rule of floats is immaterial here). -/
noncomputable def round_to (ndigits : ℕ) (x : ℝ) : ℝ :=
  ((round (x * 10 ^ ndigits) : ℤ) : ℝ) / 10 ^ ndigits

/-- `Benford.analyze`: count leading digits (propagating the `KeyError` case
as `none`), form proportions, compute the MAD against the expected Benford
probabilities, and build the per-digit result table
`(expected_value rounded to 1 decimal, actual_value)`. -/
noncomputable def analyze (transactions : List Amount) :
    Option ((ℤ → ℝ × ℕ) × ℝ) :=
  (count_first_digits transactions).map fun digit_counts =>
    let total_transactions := ∑ digit in Finset.Icc (1 : ℤ) 9, digit_counts digit
    let props := actual_proportions digit_counts total_transactions
    let mad := calculate_mad props expected_probabilities
    (fun digit =>
        (round_to 1 (expected_probabilities digit * (total_transactions : ℝ)),
         digit_counts digit),
     round_to 5 mad)

/-- `Benford.interpret_mad`: threshold classification of a MAD value. -/
noncomputable def interpret_mad (mad : ℝ) : String :=
  if mad < 0.006 then "Close conformity - data likely follows Benford\x27s Law"
  else if mad < 0.012 then
    "Acceptable conformity - data reasonably follows Benford\x27s Law"
  else if mad < 0.015 then "Marginally acceptable conformity - investigate further"
  else "Non-conformity - potential data quality issues or fraud"

end Benford

/-- A balance sheet.  The source subscripts the keys appearing here as plain
fields directly (raising `KeyError` when absent), and reads the `Option`
fields with `dict.get(key, 0)`.  The nested `assets`/`liabilities`/`equity`
sub-dicts are flattened. -/
structure BalanceSheet where
  current_assets : ℚ
  non_current_assets : ℚ
  current_liabilities : ℚ
  non_current_liabilities : ℚ
  common_stock : ℚ
  retained_earnings : ℚ
  cash : Option ℚ := none
  accounts_receivable : Option ℚ := none
  inventory : Option ℚ := none
  short_term_debt : Option ℚ := none
deriving DecidableEq

/-- An income statement.  Every key the source reads from it is accessed with
`dict.get(key, default)`, so every field is optional here. -/
structure IncomeStatement where
  revenue : Option ℚ := none
  cost_of_goods_sold : Option ℚ := none
  gross_profit : Option ℚ := none
  operating_expenses : Option ℚ := none
  operating_income : Option ℚ := none
  interest_expense : Option ℚ := none
  income_tax_expense : Option ℚ := none
  net_income : Option ℚ := none
deriving DecidableEq

/-- A cash-flow statement; every key is read with `dict.get(key, 0)`. -/
structure CashFlow where
  operating_activities : Option ℚ := none
  investing_activities : Option ℚ := none
  financing_activities : Option ℚ := none
  capital_expenditure : Option ℚ := none
  depreciation : Option ℚ := none
  debt_issuance : Option ℚ := none
  debt_repayment : Option ℚ := none
  dividends_paid : Option ℚ := none
deriving DecidableEq

/-- One appended check-outcome dict, restricted to the fields the
specification's claims are about: `check`, `status`, `severity` (absent on
PASS entries and on warnings) and `difference` (present only on the findings
that record one).  The remaining purely diagnostic payload (messages and
echoed input values) is not modelled. -/
structure Finding where
  check : String
  status : String
  severity : Option String := none
  difference : Option ℚ := none
deriving DecidableEq

/-- The mutable accumulation state of a `FinancialStatementAuditor` instance:
`self.errors`, `self.warnings`, `self.passed_checks`. -/
structure AuditorState where
  errors : List Finding := []
  warnings : List Finding := []
  passed_checks : List Finding := []
deriving DecidableEq

/-- `self.errors.append(f)`. -/
def AuditorState.addError (s : AuditorState) (f : Finding) : AuditorState :=
  { s with errors := s.errors ++ [f] }

/-- `self.warnings.append(f)`. -/
def AuditorState.addWarning (s : AuditorState) (f : Finding) : AuditorState :=
  { s with warnings := s.warnings ++ [f] }

/-- `self.passed_checks.append(f)`. -/
def AuditorState.addPass (s : AuditorState) (f : Finding) : AuditorState :=
  { s with passed_checks := s.passed_checks ++ [f] }

/-- The state of a freshly constructed auditor: three empty lists. -/
def initState : AuditorState := {}

/-- The `summary` part of the compiled audit results (the `audit_date`
timestamp is not modelled). -/
structure AuditSummary where
  total_checks : ℕ
  passed : ℕ
  failed : ℕ
  warnings : ℕ
  status : String
deriving DecidableEq

/-- The dict returned by `run_all_audits`. -/
structure AuditReport where
  summary : AuditSummary
  passed_checks : List Finding
  warnings : List Finding
  errors : List Finding
deriving DecidableEq

namespace FinancialStatementAuditor

/-- Check 1 of the balance-sheet validations: `Assets = Liabilities + Equity`
with zero tolerance. -/
def validate_balance_sheet_equation (bs : BalanceSheet) (s : AuditorState) :
    AuditorState × Bool :=
  let total_assets := bs.current_assets + bs.non_current_assets
  let total_liabilities := bs.current_liabilities + bs.non_current_liabilities
  let total_equity := bs.common_stock + bs.retained_earnings
  let difference := total_assets - (total_liabilities + total_equity)
  if |difference| = 0 then
    (s.addPass ⟨"Balance Sheet Equation (A = L + E)", "PASS", none, some difference⟩,
     true)
  else
    (s.addError
       ⟨"Balance Sheet Equation (A = L + E)", "FAIL", some "CRITICAL",
        some difference⟩,
     false)

/-- Check 2: cash, receivables and inventory must be non-negative; the first
negative one found is reported and stops the check.  (The source's
`value is not None` guard is always true in this numeric model.) -/
def validate_current_assets_composition (bs : BalanceSheet) (s : AuditorState) :
    AuditorState × Bool :=
  let cash := bs.cash.getD 0
  let ar := bs.accounts_receivable.getD 0
  let inventory := bs.inventory.getD 0
  if cash < 0 then
    (s.addError ⟨"Current Assets Composition", "FAIL", some "HIGH", none⟩, false)
  else if ar < 0 then
    (s.addError ⟨"Current Assets Composition", "FAIL", some "HIGH", none⟩, false)
  else if inventory < 0 then
    (s.addError ⟨"Current Assets Composition", "FAIL", some "HIGH", none⟩, false)
  else
    (s.addPass ⟨"Current Assets Composition", "PASS", none, none⟩, true)

/-- Check 3: total liabilities non-negative (CRITICAL), negative total equity
is only a warning, common stock non-negative (CRITICAL). -/
def validate_liability_equity_structure (bs : BalanceSheet) (s : AuditorState) :
    AuditorState × Bool :=
  let total_liabilities := bs.current_liabilities + bs.non_current_liabilities
  let total_equity := bs.common_stock + bs.retained_earnings
  if total_liabilities < 0 then
    (s.addError ⟨"Liability and Equity Structure", "FAIL", some "CRITICAL", none⟩,
     false)
  else
    let s :=
      if total_equity < 0 then
        s.addWarning ⟨"Liability and Equity Structure", "WARNING", none, none⟩
      else s
    if bs.common_stock < 0 then
      (s.addError ⟨"Liability and Equity Structure", "FAIL", some "CRITICAL", none⟩,
       false)
    else
      (s.addPass ⟨"Liability and Equity Structure", "PASS", none, none⟩, true)

/-- The three income-statement flow checks: `Revenue - COGS = Gross Profit`,
`Gross Profit - OpEx = Operating Income` (whose failure entry carries the
status tag `WARNING` and severity `HIGH` but is appended to `errors`), and
`Operating Income - Interest - Taxes = Net Income`.  Every field is read with
`inc.get(key, 0)`.  Returns `all(check_results)`. -/
def validate_income_statement_flow (inc : IncomeStatement) (s : AuditorState) :
    AuditorState × Bool :=
  let revenue := inc.revenue.getD 0
  let cogs := inc.cost_of_goods_sold.getD 0
  let gross_profit_actual := inc.gross_profit.getD 0
  let gross_profit_calculated := revenue - cogs
  let ok1 := |gross_profit_actual - gross_profit_calculated| = 0
  let s :=
    if ok1 then
      s.addPass
        ⟨"Gross Profit Calculation (Revenue - COGS)", "PASS", none,
         some |gross_profit_actual - gross_profit_calculated|⟩
    else
      s.addError
        ⟨"Gross Profit Calculation", "FAIL", some "CRITICAL",
         some |gross_profit_actual - gross_profit_calculated|⟩
  let opex := inc.operating_expenses.getD 0
  let operating_income_actual := inc.operating_income.getD 0
  let operating_income_calculated := gross_profit_actual - opex
  let ok2 := |operating_income_actual - operating_income_calculated| = 0
  let s :=
    if ok2 then
      s.addPass ⟨"Operating Income Calculation (GP - OpEx)", "PASS", none, none⟩
    else
      s.addError ⟨"Operating Income Calculation", "WARNING", some "HIGH", none⟩
  let interest_exp := inc.interest_expense.getD 0
  let taxes := inc.income_tax_expense.getD 0
  let net_income_actual := inc.net_income.getD 0
  let net_income_calculated := operating_income_actual - interest_exp - taxes
  let ok3 := |net_income_actual - net_income_calculated| = 0
  let s :=
    if ok3 then
      s.addPass
        ⟨"Net Income Calculation (OI - Interest - Taxes)", "PASS", none, none⟩
    else
      s.addError ⟨"Net Income Calculation", "FAIL", some "CRITICAL", none⟩
  (s, ok1 && ok2 && ok3)

/-- Income-statement sign/bounds checks 4-8, with the source's early returns:
negative revenue (CRITICAL), COGS above revenue (warning only), negative
operating expenses (HIGH), negative interest (HIGH), negative taxes (warning
only). -/
def validate_income_statement_logic (inc : IncomeStatement) (s : AuditorState) :
    AuditorState × Bool :=
  let revenue := inc.revenue.getD 0
  if revenue < 0 then
    (s.addError ⟨"Income Statement Logic", "FAIL", some "CRITICAL", none⟩, false)
  else
    let cogs := inc.cost_of_goods_sold.getD 0
    let s :=
      if cogs > revenue ∧ cogs ≠ 0 then
        s.addWarning ⟨"Income Statement Logic", "WARNING", none, none⟩
      else s
    let opex := inc.operating_expenses.getD 0
    if opex < 0 then
      (s.addError ⟨"Income Statement Logic", "FAIL", some "HIGH", none⟩, false)
    else
      let interest := inc.interest_expense.getD 0
      if interest < 0 then
        (s.addError ⟨"Income Statement Logic", "FAIL", some "HIGH", none⟩, false)
      else
        let taxes := inc.income_tax_expense.getD 0
        let s :=
          if taxes < 0 then
            s.addWarning ⟨"Income Statement Logic", "WARNING", none, none⟩
          else s
        (s.addPass ⟨"Income Statement Logic", "PASS", none, none⟩, true)

/-- Cash-flow check 1: records `OCF + ICF + FCF` and always passes. -/
def validate_cash_flow_components (_cf : CashFlow) (s : AuditorState) :
    AuditorState × Bool :=
  (s.addPass ⟨"Cash Flow Reconciliation", "PASS", none, none⟩, true)

/-- Investing cash-flow checks: positive CapEx is a warning; negative
depreciation is a MEDIUM error. -/
def validate_investing_cash_flow_components (cf : CashFlow) (s : AuditorState) :
    AuditorState × Bool :=
  let capex := cf.capital_expenditure.getD 0
  let depreciation := cf.depreciation.getD 0
  let s :=
    if capex > 0 ∧ capex ≠ 0 then
      s.addWarning ⟨"Investing CF Components", "WARNING", none, none⟩
    else s
  if depreciation < 0 then
    (s.addError ⟨"Investing CF Components", "FAIL", some "MEDIUM", none⟩, false)
  else
    (s.addPass ⟨"Investing CF Components", "PASS", none, none⟩, true)

/-- Financing cash-flow checks: three sign conventions, each a warning only. -/
def validate_financing_cash_flow_components (cf : CashFlow) (s : AuditorState) :
    AuditorState × Bool :=
  let debt_issued := cf.debt_issuance.getD 0
  let debt_repaid := cf.debt_repayment.getD 0
  let dividends := cf.dividends_paid.getD 0
  let s :=
    if debt_issued < 0 ∧ debt_issued ≠ 0 then
      s.addWarning ⟨"Financing CF Components", "WARNING", none, none⟩
    else s
  let s :=
    if debt_repaid > 0 ∧ debt_repaid ≠ 0 then
      s.addWarning ⟨"Financing CF Components", "WARNING", none, none⟩
    else s
  let s :=
    if dividends > 0 ∧ dividends ≠ 0 then
      s.addWarning ⟨"Financing CF Components", "WARNING", none, none⟩
    else s
  (s.addPass ⟨"Financing CF Components", "PASS", none, none⟩, true)

/-- Cross-statement check: when net income is positive, operating cash flow is
expected within `[0.5 * NI, 2.0 * NI]` (warning outside); otherwise the check
passes unconditionally.  Always returns `true`. -/
def validate_net_income_to_cash_flow (inc : IncomeStatement) (cf : CashFlow)
    (s : AuditorState) : AuditorState × Bool :=
  let net_income := inc.net_income.getD 0
  let ocf := cf.operating_activities.getD 0
  if net_income > 0 then
    if net_income * (1 / 2) ≤ ocf ∧ ocf ≤ net_income * 2 then
      (s.addPass ⟨"Net Income to Operating CF", "PASS", none, none⟩, true)
    else
      (s.addWarning ⟨"Net Income to Operating CF", "WARNING", none, none⟩, true)
  else
    (s.addPass ⟨"Net Income to Operating CF", "PASS", none, none⟩, true)

/-- Cross-statement consistency: short-term debt above total liabilities is a
FAIL/HIGH error; common stock above total equity is appended to `errors` with
the status tag `WARNING` and severity `HIGH`. -/
def validate_balance_sheet_consistency (bs : BalanceSheet) (s : AuditorState) :
    AuditorState × Bool :=
  let total_liabilities := bs.current_liabilities + bs.non_current_liabilities
  let total_equity := bs.common_stock + bs.retained_earnings
  let short_term_debt := bs.short_term_debt.getD 0
  let common_stock := bs.common_stock
  if short_term_debt > total_liabilities ∧ short_term_debt > 0 then
    (s.addError ⟨"Balance Sheet Item Consistency", "FAIL", some "HIGH", none⟩,
     false)
  else if common_stock > total_equity ∧ common_stock > 0 then
    (s.addError ⟨"Balance Sheet Item Consistency", "WARNING", some "HIGH", none⟩,
     false)
  else
    (s.addPass ⟨"Balance Sheet Item Consistency", "PASS", none, none⟩, true)

/-- Ratio reasonableness.  `revenue = inc.get('revenue', 1)`: the default `1`
applies only when the key is absent.  Each of the three margin checks is
guarded by `revenue != 0` and the debt-to-assets check by
`total_assets != 0`; inside the guards, in-band ratios append a PASS and
out-of-band ratios a warning.  Always returns `true`. -/
def validate_ratios_reasonableness (bs : BalanceSheet) (inc : IncomeStatement)
    (s : AuditorState) : AuditorState × Bool :=
  let revenue := inc.revenue.getD 1
  let gross_profit := inc.gross_profit.getD 0
  let operating_income := inc.operating_income.getD 0
  let net_income := inc.net_income.getD 0
  let total_assets := bs.current_assets + bs.non_current_assets
  let total_liabilities := bs.current_liabilities + bs.non_current_liabilities
  let s :=
    if revenue ≠ 0 then
      let gross_margin := gross_profit / revenue * 100
      if -1 ≤ gross_margin ∧ gross_margin ≤ 101 then
        s.addPass ⟨"Financial Ratios Reasonableness - Gross Margin", "PASS", none, none⟩
      else
        s.addWarning
          ⟨"Financial Ratios Reasonableness - Gross Margin", "WARNING", none, none⟩
    else s
  let s :=
    if revenue ≠ 0 then
      let operating_margin := operating_income / revenue * 100
      if -101 ≤ operating_margin ∧ operating_margin ≤ 101 then
        s.addPass
          ⟨"Financial Ratios Reasonableness - Operating Margin", "PASS", none, none⟩
      else
        s.addWarning
          ⟨"Financial Ratios Reasonableness - Operating Margin", "WARNING", none, none⟩
    else s
  let s :=
    if revenue ≠ 0 then
      let net_margin := net_income / revenue * 100
      if -101 ≤ net_margin ∧ net_margin ≤ 101 then
        s.addPass ⟨"Financial Ratios Reasonableness - Net Margin", "PASS", none, none⟩
      else
        s.addWarning
          ⟨"Financial Ratios Reasonableness - Net Margin", "WARNING", none, none⟩
    else s
  let s :=
    if total_assets ≠ 0 then
      let debt_to_assets := total_liabilities / total_assets * 100
      if 0 ≤ debt_to_assets ∧ debt_to_assets ≤ 200 then
        s.addPass
          ⟨"Financial Ratios Reasonableness - Debt to Assets", "PASS", none, none⟩
      else
        s.addWarning
          ⟨"Financial Ratios Reasonableness - Debt to Assets", "WARNING", none, none⟩
    else s
  (s, true)

/-- Stages 5-11 of `run_all_audits` (everything after the income-statement
flow check), split out so that lemmas can talk about the state at that point. -/
def run_checks_from5 (bs : BalanceSheet) (inc : IncomeStatement) (cf : CashFlow)
    (s : AuditorState) : AuditorState :=
  let s := (validate_income_statement_logic inc s).1
  let s := (validate_cash_flow_components cf s).1
  let s := (validate_investing_cash_flow_components cf s).1
  let s := (validate_financing_cash_flow_components cf s).1
  let s := (validate_net_income_to_cash_flow inc cf s).1
  let s := (validate_balance_sheet_consistency bs s).1
  let s := (validate_ratios_reasonableness bs inc s).1
  s

/-- Stages 2-11 of `run_all_audits` (everything after the balance-sheet
equation check). -/
def run_checks_from2 (bs : BalanceSheet) (inc : IncomeStatement) (cf : CashFlow)
    (s : AuditorState) : AuditorState :=
  let s := (validate_current_assets_composition bs s).1
  let s := (validate_liability_equity_structure bs s).1
  let s := (validate_income_statement_flow inc s).1
  run_checks_from5 bs inc cf s

/-- The check sequence of `run_all_audits`, in source order, threading the
instance's finding lists; the returned booleans are discarded exactly as in
the source. -/
def run_checks (bs : BalanceSheet) (inc : IncomeStatement) (cf : CashFlow)
    (s : AuditorState) : AuditorState :=
  run_checks_from2 bs inc cf (validate_balance_sheet_equation bs s).1

/-- `run_all_audits` on a freshly constructed auditor: execute every check and
compile the summary (`total_checks = len(passed) + len(errors)`, overall
status `PASSED` exactly when `errors` is empty). -/
def run_all_audits (bs : BalanceSheet) (inc : IncomeStatement) (cf : CashFlow) :
    AuditReport :=
  let s := run_checks bs inc cf initState
  { summary :=
      { total_checks := s.passed_checks.length + s.errors.length
        passed := s.passed_checks.length
        failed := s.errors.length
        warnings := s.warnings.length
        status := if s.errors = [] then "PASSED" else "FAILED" }
    passed_checks := s.passed_checks
    warnings := s.warnings
    errors := s.errors }

end FinancialStatementAuditor

namespace FinancialStatementAuditor

lemma addError_errors (s : AuditorState) (f : Finding) :
    (s.addError f).errors = s.errors ++ [f] := rfl

lemma addWarning_errors (s : AuditorState) (f : Finding) :
    (s.addWarning f).errors = s.errors := rfl

lemma addPass_errors (s : AuditorState) (f : Finding) :
    (s.addPass f).errors = s.errors := rfl

lemma errNe_current_assets (bs : BalanceSheet) (s : AuditorState)
    (h : s.errors ≠ []) : ((validate_current_assets_composition bs s).1).errors ≠ [] := by
  unfold validate_current_assets_composition
  dsimp only
  split_ifs <;> simp_all [AuditorState.addError, AuditorState.addPass]

lemma errNe_liability_equity (bs : BalanceSheet) (s : AuditorState)
    (h : s.errors ≠ []) : ((validate_liability_equity_structure bs s).1).errors ≠ [] := by
  unfold validate_liability_equity_structure
  dsimp only
  split_ifs <;>
    simp_all [AuditorState.addError, AuditorState.addPass, AuditorState.addWarning]

lemma errNe_income_flow (inc : IncomeStatement) (s : AuditorState)
    (h : s.errors ≠ []) : ((validate_income_statement_flow inc s).1).errors ≠ [] := by
  unfold validate_income_statement_flow
  dsimp only
  split_ifs <;> simp_all [AuditorState.addError, AuditorState.addPass]

lemma errNe_income_logic (inc : IncomeStatement) (s : AuditorState)
    (h : s.errors ≠ []) : ((validate_income_statement_logic inc s).1).errors ≠ [] := by
  unfold validate_income_statement_logic
  dsimp only
  split_ifs <;>
    simp_all [AuditorState.addError, AuditorState.addPass, AuditorState.addWarning]

lemma errNe_cash_flow (cf : CashFlow) (s : AuditorState)
    (h : s.errors ≠ []) : ((validate_cash_flow_components cf s).1).errors ≠ [] := by
  unfold validate_cash_flow_components
  simp_all [AuditorState.addPass]

lemma errNe_investing (cf : CashFlow) (s : AuditorState)
    (h : s.errors ≠ []) :
    ((validate_investing_cash_flow_components cf s).1).errors ≠ [] := by
  unfold validate_investing_cash_flow_components
  dsimp only
  split_ifs <;>
    simp_all [AuditorState.addError, AuditorState.addPass, AuditorState.addWarning]

lemma errNe_financing (cf : CashFlow) (s : AuditorState)
    (h : s.errors ≠ []) :
    ((validate_financing_cash_flow_components cf s).1).errors ≠ [] := by
  unfold validate_financing_cash_flow_components
  dsimp only
  split_ifs <;> simp_all [AuditorState.addPass, AuditorState.addWarning]

lemma errNe_ni_to_cf (inc : IncomeStatement) (cf : CashFlow) (s : AuditorState)
    (h : s.errors ≠ []) :
    ((validate_net_income_to_cash_flow inc cf s).1).errors ≠ [] := by
  unfold validate_net_income_to_cash_flow
  dsimp only
  split_ifs <;> simp_all [AuditorState.addPass, AuditorState.addWarning]

lemma errNe_consistency (bs : BalanceSheet) (s : AuditorState)
    (h : s.errors ≠ []) :
    ((validate_balance_sheet_consistency bs s).1).errors ≠ [] := by
  unfold validate_balance_sheet_consistency
  dsimp only
  split_ifs <;> simp_all [AuditorState.addError, AuditorState.addPass]

lemma ratios_errors_eq (bs : BalanceSheet) (inc : IncomeStatement)
    (s : AuditorState) :
    ((validate_ratios_reasonableness bs inc s).1).errors = s.errors := by
  unfold validate_ratios_reasonableness
  dsimp only
  split_ifs <;> rfl

lemma errNe_ratios (bs : BalanceSheet) (inc : IncomeStatement) (s : AuditorState)
    (h : s.errors ≠ []) :
    ((validate_ratios_reasonableness bs inc s).1).errors ≠ [] := by
  rw [ratios_errors_eq]
  exact h

/-- Once some check has recorded an error, the remaining stages 5-11 of the
battery can never empty the `errors` list again. -/
lemma errNe_run_checks_from5 (bs : BalanceSheet) (inc : IncomeStatement)
    (cf : CashFlow) (s : AuditorState) (h : s.errors ≠ []) :
    (run_checks_from5 bs inc cf s).errors ≠ [] := by
  unfold run_checks_from5
  exact errNe_ratios _ _ _ (errNe_consistency _ _ (errNe_ni_to_cf _ _ _
    (errNe_financing _ _ (errNe_investing _ _ (errNe_cash_flow _ _
      (errNe_income_logic _ _ h))))))

/-- Same for stages 2-11. -/
lemma errNe_run_checks_from2 (bs : BalanceSheet) (inc : IncomeStatement)
    (cf : CashFlow) (s : AuditorState) (h : s.errors ≠ []) :
    (run_checks_from2 bs inc cf s).errors ≠ [] := by
  unfold run_checks_from2
  exact errNe_run_checks_from5 _ _ _ _ (errNe_income_flow _ _
    (errNe_liability_equity _ _ (errNe_current_assets _ _ h)))

/-- The income-statement flow check never touches the warnings list. -/
lemma flow_warnings_eq (inc : IncomeStatement) (s : AuditorState) :
    ((validate_income_statement_flow inc s).1).warnings = s.warnings := by
  unfold validate_income_statement_flow
  dsimp only
  split_ifs <;> rfl

/-- When reported operating income differs from `gross_profit - opex`, the
flow check appends its WARNING/HIGH-tagged finding to `errors`. -/
lemma flow_oi_mismatch_mem (inc : IncomeStatement) (s : AuditorState)
    (h : inc.operating_income.getD 0 ≠
      inc.gross_profit.getD 0 - inc.operating_expenses.getD 0) :
    (⟨"Operating Income Calculation", "WARNING", some "HIGH", none⟩ : Finding) ∈
      ((validate_income_statement_flow inc s).1).errors := by
  have h2 : ¬(|inc.operating_income.getD 0 -
      (inc.gross_profit.getD 0 - inc.operating_expenses.getD 0)| = 0) := by
    simpa [abs_eq_zero, sub_eq_zero] using h
  unfold validate_income_statement_flow
  dsimp only
  split_ifs <;> simp_all [AuditorState.addError, AuditorState.addPass]

/-- The aggregated status is `FAILED` exactly when the accumulated `errors`
list is non-empty. -/
lemma run_all_audits_status_iff (bs : BalanceSheet) (inc : IncomeStatement)
    (cf : CashFlow) :
    ((run_all_audits bs inc cf).summary.status = "FAILED" ↔
      (run_all_audits bs inc cf).errors ≠ []) := by
  unfold run_all_audits
  by_cases h : (run_checks bs inc cf initState).errors = [] <;> simp [h]

end FinancialStatementAuditor

open FinancialStatementAuditor in
/-- Claim C4: in the report produced by `run_all_audits` on a fresh auditor,
`summary.status` is `FAILED` if and only if the `errors` list is non-empty;
the `warnings` list never influences the status. -/
theorem audit_status_failed_iff_errors (bs : BalanceSheet)
    (inc : IncomeStatement) (cf : CashFlow) :
    ((run_all_audits bs inc cf).summary.status = "FAILED" ↔
      (run_all_audits bs inc cf).errors ≠ []) :=
  run_all_audits_status_iff bs inc cf

open FinancialStatementAuditor in
/-- Claim C10: `summary.total_checks` is the sum of `summary.passed` and
`summary.failed`, which are the lengths of the `passed_checks` and `errors`
lists; findings in `warnings` are counted only by `summary.warnings` and do
not enter `total_checks`. -/
theorem audit_summary_counts (bs : BalanceSheet) (inc : IncomeStatement)
    (cf : CashFlow) :
    (run_all_audits bs inc cf).summary.total_checks =
        (run_all_audits bs inc cf).summary.passed +
          (run_all_audits bs inc cf).summary.failed
      ∧ (run_all_audits bs inc cf).summary.passed =
          (run_all_audits bs inc cf).passed_checks.length
      ∧ (run_all_audits bs inc cf).summary.failed =
          (run_all_audits bs inc cf).errors.length
      ∧ (run_all_audits bs inc cf).summary.warnings =
          (run_all_audits bs inc cf).warnings.length :=
  ⟨rfl, rfl, rfl, rfl⟩

open FinancialStatementAuditor in
/-- Claim C5: on a fresh auditor, `validate_balance_sheet_equation` returns
`true` and appends exactly one PASS finding with `difference = 0` when total
assets equal total liabilities plus total equity exactly; otherwise it returns
`false`, appends exactly one FAIL/CRITICAL finding whose `difference` is the
exact discrepancy `total assets - (total liabilities + total equity)`, and a
subsequent `run_all_audits` report carries `summary.status = "FAILED"`. -/
theorem balance_sheet_equation_exact (bs : BalanceSheet) (inc : IncomeStatement)
    (cf : CashFlow) :
    (bs.current_assets + bs.non_current_assets -
        (bs.current_liabilities + bs.non_current_liabilities +
          (bs.common_stock + bs.retained_earnings)) = 0 →
      validate_balance_sheet_equation bs initState =
        ({ initState with
            passed_checks :=
              [⟨"Balance Sheet Equation (A = L + E)", "PASS", none, some 0⟩] },
         true))
    ∧ (bs.current_assets + bs.non_current_assets -
        (bs.current_liabilities + bs.non_current_liabilities +
          (bs.common_stock + bs.retained_earnings)) ≠ 0 →
      validate_balance_sheet_equation bs initState =
          ({ initState with
              errors :=
                [⟨"Balance Sheet Equation (A = L + E)", "FAIL", some "CRITICAL",
                  some (bs.current_assets + bs.non_current_assets -
                    (bs.current_liabilities + bs.non_current_liabilities +
                      (bs.common_stock + bs.retained_earnings)))⟩] },
           false)
        ∧ (run_all_audits bs inc cf).summary.status = "FAILED") := by
  constructor
  · intro h
    unfold validate_balance_sheet_equation
    dsimp only
    rw [if_pos (by simpa [abs_eq_zero] using h)]
    simp [AuditorState.addPass, initState, h]
  · intro h
    have habs : ¬(|bs.current_assets + bs.non_current_assets -
        (bs.current_liabilities + bs.non_current_liabilities +
          (bs.common_stock + bs.retained_earnings))| = 0) := by
      simpa [abs_eq_zero] using h
    have hstep : validate_balance_sheet_equation bs initState =
        ({ initState with
            errors :=
              [⟨"Balance Sheet Equation (A = L + E)", "FAIL", some "CRITICAL",
                some (bs.current_assets + bs.non_current_assets -
                  (bs.current_liabilities + bs.non_current_liabilities +
                    (bs.common_stock + bs.retained_earnings)))⟩] },
         false) := by
      unfold validate_balance_sheet_equation
      dsimp only
      rw [if_neg habs]
      simp [AuditorState.addError, initState]
    refine ⟨hstep, ?_⟩
    rw [run_all_audits_status_iff]
    show (run_checks bs inc cf initState).errors ≠ []
    unfold run_checks
    apply errNe_run_checks_from2
    rw [congrArg Prod.fst hstep]
    simp

def bsBalancedW : BalanceSheet :=
  { current_assets := 1, non_current_assets := 0, current_liabilities := 1,
    non_current_liabilities := 0, common_stock := 0, retained_earnings := 0 }

def bsUnbalancedW : BalanceSheet :=
  { current_assets := 2, non_current_assets := 0, current_liabilities := 1,
    non_current_liabilities := 0, common_stock := 0, retained_earnings := 0 }

open FinancialStatementAuditor in
/-- Witness for C5 at a balanced and at an unbalanced concrete balance sheet. -/
theorem balance_sheet_equation_exact_witness :
    (validate_balance_sheet_equation bsBalancedW initState =
      ({ initState with
          passed_checks :=
            [⟨"Balance Sheet Equation (A = L + E)", "PASS", none, some 0⟩] },
       true))
    ∧ (validate_balance_sheet_equation bsUnbalancedW initState =
          ({ initState with
              errors :=
                [⟨"Balance Sheet Equation (A = L + E)", "FAIL", some "CRITICAL",
                  some (2 + 0 - (1 + 0 + (0 + 0)))⟩] },
           false)
        ∧ (run_all_audits bsUnbalancedW {} {}).summary.status = "FAILED") :=
  ⟨(balance_sheet_equation_exact bsBalancedW {} {}).1 (by simp [bsBalancedW]),
   (balance_sheet_equation_exact bsUnbalancedW {} {}).2
     (by simp [bsUnbalancedW, sub_eq_zero])⟩

open FinancialStatementAuditor in
/-- Claim C6: an operating-income flow mismatch is appended to the `errors`
accumulation (not the warnings list) as a finding tagged status `WARNING`,
severity `HIGH`, and therefore flips the overall audit status to `FAILED`;
the common-stock-exceeds-equity consistency finding is likewise appended to
`errors` with a `WARNING` status tag. -/
theorem warning_tagged_findings_in_errors (bs : BalanceSheet)
    (inc : IncomeStatement) (cf : CashFlow) (s : AuditorState) :
    (inc.operating_income.getD 0 ≠
        inc.gross_profit.getD 0 - inc.operating_expenses.getD 0 →
      (⟨"Operating Income Calculation", "WARNING", some "HIGH", none⟩ : Finding) ∈
          ((validate_income_statement_flow inc s).1).errors
        ∧ ((validate_income_statement_flow inc s).1).warnings = s.warnings
        ∧ (run_all_audits bs inc cf).summary.status = "FAILED")
    ∧ (¬(bs.short_term_debt.getD 0 >
            bs.current_liabilities + bs.non_current_liabilities ∧
          bs.short_term_debt.getD 0 > 0) →
        bs.common_stock > bs.common_stock + bs.retained_earnings ∧
            bs.common_stock > 0 →
        validate_balance_sheet_consistency bs s =
          (s.addError
             ⟨"Balance Sheet Item Consistency", "WARNING", some "HIGH", none⟩,
           false)) := by
  constructor
  · intro h
    refine ⟨flow_oi_mismatch_mem inc s h, flow_warnings_eq inc s, ?_⟩
    rw [run_all_audits_status_iff]
    show (run_checks bs inc cf initState).errors ≠ []
    unfold run_checks run_checks_from2
    dsimp only
    apply errNe_run_checks_from5
    exact List.ne_nil_of_mem (flow_oi_mismatch_mem inc _ h)
  · intro h1 h2
    unfold validate_balance_sheet_consistency
    dsimp only
    rw [if_neg h1, if_pos h2]

def incOperIncomeW : IncomeStatement := { operating_income := some 5 }

def bsCommonStockW : BalanceSheet :=
  { current_assets := 0, non_current_assets := 0, current_liabilities := 0,
    non_current_liabilities := 0, common_stock := 10, retained_earnings := -5 }

open FinancialStatementAuditor in
/-- Witness for C6 at a concrete mismatching income statement and a concrete
balance sheet whose common stock exceeds total equity. -/
theorem warning_tagged_findings_in_errors_witness :
    ((⟨"Operating Income Calculation", "WARNING", some "HIGH", none⟩ : Finding) ∈
        ((validate_income_statement_flow incOperIncomeW initState).1).errors
      ∧ ((validate_income_statement_flow incOperIncomeW initState).1).warnings =
          initState.warnings
      ∧ (run_all_audits bsCommonStockW incOperIncomeW {}).summary.status =
          "FAILED")
    ∧ validate_balance_sheet_consistency bsCommonStockW initState =
        (initState.addError
           ⟨"Balance Sheet Item Consistency", "WARNING", some "HIGH", none⟩,
         false) :=
  ⟨(warning_tagged_findings_in_errors bsCommonStockW incOperIncomeW {}
        initState).1 (by simp [incOperIncomeW]),
   (warning_tagged_findings_in_errors bsCommonStockW incOperIncomeW {}
        initState).2 (by simp [bsCommonStockW]) (by simp [bsCommonStockW])⟩

def incMissingRevenue : IncomeStatement :=
  { cost_of_goods_sold := some 10, gross_profit := some (-10),
    operating_expenses := some 0, operating_income := some (-10),
    interest_expense := some 0, income_tax_expense := some 0,
    net_income := some (-10) }

open FinancialStatementAuditor in
/-- Claim C2 counterexample: on an income statement whose required `revenue`
key is absent, the income-statement flow check does not fail at all — it
treats the missing revenue as `0` (behaving identically to an explicit
`revenue = 0`), records three PASS findings and no error, and returns
`true`. -/
theorem income_flow_missing_revenue_counterexample :
    (validate_income_statement_flow incMissingRevenue initState =
        ({ initState with
            passed_checks :=
              [⟨"Gross Profit Calculation (Revenue - COGS)", "PASS", none, some 0⟩,
               ⟨"Operating Income Calculation (GP - OpEx)", "PASS", none, none⟩,
               ⟨"Net Income Calculation (OI - Interest - Taxes)", "PASS", none,
                none⟩] },
         true))
      ∧ validate_income_statement_flow incMissingRevenue initState =
          validate_income_statement_flow
            { incMissingRevenue with revenue := some 0 } initState := by
  constructor
  · norm_num [validate_income_statement_flow, incMissingRevenue, initState,
      AuditorState.addPass]
  · norm_num [validate_income_statement_flow, incMissingRevenue]

/-- The income statement with every absent key replaced by an explicit `0`,
the value `dict.get(key, 0)` yields for it. -/
def fill_missing_with_zero (inc : IncomeStatement) : IncomeStatement :=
  { revenue := some (inc.revenue.getD 0)
    cost_of_goods_sold := some (inc.cost_of_goods_sold.getD 0)
    gross_profit := some (inc.gross_profit.getD 0)
    operating_expenses := some (inc.operating_expenses.getD 0)
    operating_income := some (inc.operating_income.getD 0)
    interest_expense := some (inc.interest_expense.getD 0)
    income_tax_expense := some (inc.income_tax_expense.getD 0)
    net_income := some (inc.net_income.getD 0) }

open FinancialStatementAuditor in
/-- Claim C2 amended: the income-statement checks never fail fast on a
missing field — every field is read with `dict.get(key, 0)`, so both
income-statement validators behave on any statement exactly as on the same
statement with all absent fields replaced by `0`.  (Only the balance sheet's
required keys are accessed by direct subscription.) -/
theorem income_statement_missing_fields_default (inc : IncomeStatement)
    (s : AuditorState) :
    validate_income_statement_flow inc s =
        validate_income_statement_flow (fill_missing_with_zero inc) s
      ∧ validate_income_statement_logic inc s =
          validate_income_statement_logic (fill_missing_with_zero inc) s := by
  constructor <;>
    simp [validate_income_statement_flow, validate_income_statement_logic,
      fill_missing_with_zero]

def bsRatiosW : BalanceSheet :=
  { current_assets := 50, non_current_assets := 50, current_liabilities := 20,
    non_current_liabilities := 20, common_stock := 30, retained_earnings := 30 }

def incZeroRevenue : IncomeStatement :=
  { revenue := some 0, gross_profit := some 2 }

open FinancialStatementAuditor in
/-- Claim C3 counterexample: with `revenue` present and equal to `0`, the
ratio-reasonableness check performs none of the three margin checks — the
only finding it appends is the debt-to-assets PASS.  (Had revenue been
treated as `1` as the claim states, the gross margin would be `200%`, out of
band, and a gross-margin warning would have been appended.) -/
theorem ratios_zero_revenue_counterexample :
    validate_ratios_reasonableness bsRatiosW incZeroRevenue initState =
      ({ initState with
          passed_checks :=
            [⟨"Financial Ratios Reasonableness - Debt to Assets", "PASS", none,
              none⟩] },
       true) := by
  norm_num [validate_ratios_reasonableness, bsRatiosW, incZeroRevenue, initState,
    AuditorState.addPass]

open FinancialStatementAuditor in
/-- Claim C3 amended: the `1` in `inc.get('revenue', 1)` is the default for
an **absent** revenue key, so with revenue missing the check behaves exactly
as with `revenue = 1` (margin checks performed); with revenue **present and
equal to 0** the three margin checks are skipped entirely (no PASS and no
WARNING is appended for them) and only the debt-to-assets check runs, guarded
directly by `total_assets != 0`. -/
theorem ratios_revenue_default_handling (bs : BalanceSheet)
    (inc : IncomeStatement) (s : AuditorState) :
    (inc.revenue = none →
      validate_ratios_reasonableness bs inc s =
        validate_ratios_reasonableness bs { inc with revenue := some 1 } s)
    ∧ (inc.revenue = some 0 →
      validate_ratios_reasonableness bs inc s =
        (if bs.current_assets + bs.non_current_assets ≠ 0 then
          if 0 ≤ (bs.current_liabilities + bs.non_current_liabilities) /
                (bs.current_assets + bs.non_current_assets) * 100 ∧
              (bs.current_liabilities + bs.non_current_liabilities) /
                (bs.current_assets + bs.non_current_assets) * 100 ≤ 200 then
            (s.addPass
               ⟨"Financial Ratios Reasonableness - Debt to Assets", "PASS", none,
                none⟩,
             true)
          else
            (s.addWarning
               ⟨"Financial Ratios Reasonableness - Debt to Assets", "WARNING",
                none, none⟩,
             true)
        else (s, true))) := by
  constructor
  · intro h
    simp [validate_ratios_reasonableness, h]
  · intro h
    simp [validate_ratios_reasonableness, h]
    split_ifs <;> rfl

def incAbsentRevenue : IncomeStatement := { gross_profit := some 2 }

open FinancialStatementAuditor in
/-- Witness for the amended C3 at a concrete absent-revenue statement and a
concrete zero-revenue statement. -/
theorem ratios_revenue_default_handling_witness :
    (validate_ratios_reasonableness bsRatiosW incAbsentRevenue initState =
        validate_ratios_reasonableness bsRatiosW
          { incAbsentRevenue with revenue := some 1 } initState)
    ∧ validate_ratios_reasonableness bsRatiosW incZeroRevenue initState =
        (if (50 + 50 : ℚ) ≠ 0 then
          if 0 ≤ ((20 + 20 : ℚ)) / (50 + 50) * 100 ∧
              ((20 + 20 : ℚ)) / (50 + 50) * 100 ≤ 200 then
            (initState.addPass
               ⟨"Financial Ratios Reasonableness - Debt to Assets", "PASS", none,
                none⟩,
             true)
          else
            (initState.addWarning
               ⟨"Financial Ratios Reasonableness - Debt to Assets", "WARNING",
                none, none⟩,
             true)
        else (initState, true)) :=
  ⟨(ratios_revenue_default_handling bsRatiosW incAbsentRevenue initState).1 rfl,
   (ratios_revenue_default_handling bsRatiosW incZeroRevenue initState).2 rfl⟩

namespace Benford

lemma expected_probabilities_nonneg {d : ℤ} (hd : d ∈ Finset.Icc (1 : ℤ) 9) :
    0 ≤ expected_probabilities d := by
  have h1 : (1 : ℤ) ≤ d := (Finset.mem_Icc.mp hd).1
  have hdR : (1 : ℝ) ≤ (d : ℝ) := by exact_mod_cast h1
  have hinv : 0 ≤ 1 / (d : ℝ) := by positivity
  unfold expected_probabilities
  exact Real.logb_nonneg (by norm_num) (by linarith)

lemma expected_probabilities_le_one {d : ℤ} (hd : d ∈ Finset.Icc (1 : ℤ) 9) :
    expected_probabilities d ≤ 1 := by
  have h1 : (1 : ℤ) ≤ d := (Finset.mem_Icc.mp hd).1
  have hdR : (1 : ℝ) ≤ (d : ℝ) := by exact_mod_cast h1
  have hpos : (0 : ℝ) < 1 + 1 / (d : ℝ) := by positivity
  have hinv : 1 / (d : ℝ) ≤ 1 := by
    rw [div_le_one (by linarith)]
    exact hdR
  unfold expected_probabilities
  calc Real.logb 10 (1 + 1 / (d : ℝ)) ≤ Real.logb 10 10 :=
        Real.logb_le_logb_of_le (by norm_num) hpos (by linarith)
    _ = 1 := Real.logb_self_eq_one (by norm_num)

lemma actual_proportions_nonneg (digit_counts : ℤ → ℕ) (total : ℕ) (d : ℤ) :
    0 ≤ actual_proportions digit_counts total d := by
  unfold actual_proportions
  split_ifs
  · positivity
  · exact le_refl 0

lemma actual_proportions_le_one (digit_counts : ℤ → ℕ) {d : ℤ}
    (hd : d ∈ Finset.Icc (1 : ℤ) 9) :
    actual_proportions digit_counts
      (∑ i in Finset.Icc (1 : ℤ) 9, digit_counts i) d ≤ 1 := by
  unfold actual_proportions
  split_ifs with h
  · rw [div_le_one (by exact_mod_cast h)]
    exact_mod_cast Finset.single_le_sum (fun i _ => Nat.zero_le _) hd
  · norm_num

lemma calculate_mad_nonneg (actual expected : ℤ → ℝ) :
    0 ≤ calculate_mad actual expected :=
  div_nonneg (Finset.sum_nonneg fun _ _ => abs_nonneg _) (by norm_num)

lemma calculate_mad_le_one (actual expected : ℤ → ℝ)
    (ha0 : ∀ d ∈ Finset.Icc (1 : ℤ) 9, 0 ≤ actual d)
    (ha1 : ∀ d ∈ Finset.Icc (1 : ℤ) 9, actual d ≤ 1)
    (he0 : ∀ d ∈ Finset.Icc (1 : ℤ) 9, 0 ≤ expected d)
    (he1 : ∀ d ∈ Finset.Icc (1 : ℤ) 9, expected d ≤ 1) :
    calculate_mad actual expected ≤ 1 := by
  unfold calculate_mad
  rw [div_le_one (by norm_num)]
  have hterm : ∀ d ∈ Finset.Icc (1 : ℤ) 9, |actual d - expected d| ≤ 1 := by
    intro d hd
    rw [abs_sub_le_iff]
    constructor <;> linarith [ha0 d hd, ha1 d hd, he0 d hd, he1 d hd]
  calc ∑ d in Finset.Icc (1 : ℤ) 9, |actual d - expected d| ≤
        ∑ _d in Finset.Icc (1 : ℤ) 9, (1 : ℝ) := Finset.sum_le_sum hterm
    _ = 9 := by simp

lemma round_to_nonneg (ndigits : ℕ) {x : ℝ} (hx : 0 ≤ x) :
    0 ≤ round_to ndigits x := by
  unfold round_to
  apply div_nonneg _ (by positivity)
  have h : (0 : ℤ) ≤ round (x * 10 ^ ndigits) := by
    rw [round_eq]
    apply Int.floor_nonneg.mpr
    positivity
  exact_mod_cast h

lemma round_to_le_two (ndigits : ℕ) {x : ℝ} (hx : x ≤ 1) :
    round_to ndigits x ≤ 2 := by
  unfold round_to
  rw [div_le_iff₀ (by positivity)]
  have hfl : ((round (x * 10 ^ ndigits) : ℤ) : ℝ) ≤ x * 10 ^ ndigits + 1 / 2 := by
    rw [round_eq]
    exact Int.floor_le _
  have hpow : (1 : ℝ) ≤ 10 ^ ndigits := one_le_pow₀ (by norm_num)
  nlinarith [hfl, hpow, hx]

/-- The MAD computed against the all-zero actual distribution is the mean of
the nine expected Benford probabilities. -/
lemma calculate_mad_zero_props :
    calculate_mad (actual_proportions (fun _ => 0) 0) expected_probabilities =
      (∑ digit in Finset.Icc (1 : ℤ) 9, expected_probabilities digit) / 9 := by
  unfold calculate_mad
  congr 1
  refine Finset.sum_congr rfl fun d hd => ?_
  have hp : actual_proportions (fun _ => 0) 0 d = 0 := by
    simp [actual_proportions]
  rw [hp, zero_sub, abs_neg, abs_of_nonneg (expected_probabilities_nonneg hd)]

end Benford

/-- Claim C1 (evidence for the code bug): the leading-digit extraction itself
matches the spec's examples (`5` for `-0.057`, `1` for `1000`, and the
"no leading digit" sentinel `-1` for `0`), but a record whose amount has no
non-zero decimal digit is not excluded from the tally: because the guard in
`_count_first_digits` tests `is not None` while the sentinel is `-1`, the
update `digit_counts[-1] += 1` raises `KeyError`, so `analyze` on the mapping
`{1: 0}` fails (`none`) instead of completing. -/
theorem benford_zero_amount_key_error :
    Benford.extract_first_digit ⟨-57, 3⟩ = 5
      ∧ Benford.extract_first_digit ⟨1000, 0⟩ = 1
      ∧ Benford.extract_first_digit ⟨0, 0⟩ = -1
      ∧ Benford.count_first_digits [⟨0, 0⟩] = none
      ∧ Benford.analyze [⟨0, 0⟩] = none :=
  ⟨by decide, by decide, by decide, rfl, rfl⟩

/-- Claim C7: on an empty transaction collection `analyze` completes without
a division error: the tally is all-zero, every actual proportion is `0`, and
the reported MAD is (the 5-decimal rounding of) the MAD of the all-zero
actual distribution, i.e. the mean of the nine expected Benford
probabilities. -/
theorem benford_analyze_empty :
    Benford.count_first_digits [] = some (fun _ => 0)
      ∧ (∀ digit : ℤ, Benford.actual_proportions (fun _ => 0) 0 digit = 0)
      ∧ Benford.calculate_mad (Benford.actual_proportions (fun _ => 0) 0)
          Benford.expected_probabilities =
          (∑ digit in Finset.Icc (1 : ℤ) 9,
            Benford.expected_probabilities digit) / 9
      ∧ Benford.analyze [] =
          some
            (fun digit =>
              (Benford.round_to 1
                 (Benford.expected_probabilities digit * ((0 : ℕ) : ℝ)), 0),
             Benford.round_to 5
               ((∑ digit in Finset.Icc (1 : ℤ) 9,
                   Benford.expected_probabilities digit) / 9)) := by
  refine ⟨rfl, fun digit => by simp [Benford.actual_proportions],
    Benford.calculate_mad_zero_props, ?_⟩
  unfold Benford.analyze
  have hcount : Benford.count_first_digits [] = some (fun _ => (0 : ℕ)) := rfl
  simp only [hcount, Option.map_some', Finset.sum_const_zero,
    Benford.calculate_mad_zero_props]

/-- Claim C8: whenever `analyze` completes, the returned MAD value lies in
`[0, 2]`. -/
theorem benford_mad_bounds (transactions : List Amount) :
    match Benford.analyze transactions with
    | none => True
    | some p => 0 ≤ p.2 ∧ p.2 ≤ 2 := by
  rcases hc : Benford.count_first_digits transactions with _ | digit_counts
  · simp [Benford.analyze, hc]
  · simp only [Benford.analyze, hc, Option.map_some']
    constructor
    · exact Benford.round_to_nonneg 5
        (Benford.calculate_mad_nonneg _ _)
    · have h1 : Benford.calculate_mad
          (Benford.actual_proportions digit_counts
            (∑ digit in Finset.Icc (1 : ℤ) 9, digit_counts digit))
          Benford.expected_probabilities ≤ 1 :=
        Benford.calculate_mad_le_one _ _
          (fun d _ => Benford.actual_proportions_nonneg _ _ d)
          (fun d hd => Benford.actual_proportions_le_one _ hd)
          (fun d hd => Benford.expected_probabilities_nonneg hd)
          (fun d hd => Benford.expected_probabilities_le_one hd)
      exact le_trans (Benford.round_to_le_two 5 h1) (by norm_num)

/-- Claim C9: `interpret_mad` classifies with strict upper bounds — below
`0.006` the close-conformity label, in `[0.006, 0.012)` the
acceptable-conformity label, in `[0.012, 0.015)` the marginally-acceptable
label, and from `0.015` on the non-conformity label. -/
theorem interpret_mad_thresholds (mad : ℝ) :
    (mad < 0.006 → Benford.interpret_mad mad =
        "Close conformity - data likely follows Benford\x27s Law")
      ∧ (0.006 ≤ mad → mad < 0.012 → Benford.interpret_mad mad =
          "Acceptable conformity - data reasonably follows Benford\x27s Law")
      ∧ (0.012 ≤ mad → mad < 0.015 → Benford.interpret_mad mad =
          "Marginally acceptable conformity - investigate further")
      ∧ (0.015 ≤ mad → Benford.interpret_mad mad =
          "Non-conformity - potential data quality issues or fraud") := by
  unfold Benford.interpret_mad
  refine ⟨fun h => ?_, fun h1 h2 => ?_, fun h1 h2 => ?_, fun h1 => ?_⟩
  · rw [if_pos h]
  · rw [if_neg (by linarith), if_pos h2]
  · rw [if_neg (by linarith), if_neg (by linarith), if_pos h2]
  · rw [if_neg (by linarith), if_neg (by linarith), if_neg (by linarith)]

/-- Witness for C9 at one concrete MAD value inside each band. -/
theorem interpret_mad_thresholds_witness :
    Benford.interpret_mad 0.004 =
        "Close conformity - data likely follows Benford\x27s Law"
      ∧ Benford.interpret_mad 0.008 =
          "Acceptable conformity - data reasonably follows Benford\x27s Law"
      ∧ Benford.interpret_mad 0.013 =
          "Marginally acceptable conformity - investigate further"
      ∧ Benford.interpret_mad 0.02 =
          "Non-conformity - potential data quality issues or fraud" :=
  ⟨(interpret_mad_thresholds 0.004).1 (by norm_num),
   (interpret_mad_thresholds 0.008).2.1 (by norm_num) (by norm_num),
   (interpret_mad_thresholds 0.013).2.2.1 (by norm_num) (by norm_num),
   (interpret_mad_thresholds 0.02).2.2.2 (by norm_num)⟩
